import Mathlib

/-!
Verification development for the fdbexporter status-to-metrics pipeline.

The definitions below are a shallow embedding of the Rust sources:
  - `src/status_models/cluster_data.rs` (serde-derived decoding of the
    `.cluster.data` subtree),
  - `src/metrics/prometheus/cluster_data.rs` (`ClusterData::to_metrics`),
  - `src/metrics/prometheus/mod.rs` (`FetchError::to_metrics`),
  - `src/main.rs` (`run_status_fetcher`),
  - `src/status_models/address.rs` (`FdbProcessAddress::parse` / `Display`),
  - `src/status_models/network_address.rs` (`NetworkAddress::from_str`).

JSON documents are modelled by the `Json` inductive; serde semantics for the
derived `Deserialize` impls are translated field by field (missing key for an
`Option` field decodes to `none`, `null` decodes to `none`, a wrong scalar type
is a decode error, unknown keys are ignored).  The model looks fields up by
first occurrence and does not reproduce the serde error on duplicate known
fields; no theorem below involves an object with duplicate keys.  JSON numbers
are modelled as unbounded `Int` (the i64 range check of serde_json is not
modelled; all concrete inputs are tiny).

Prometheus `IntGauge`/`IntCounter` registers are modelled as record fields of
explicit state records (`ClusterGauges`, `ExporterCounters`); a conversion pass
is a state-to-state function.  Gauges initialize to 0, as prometheus gauges do.
-/

namespace FdbExporter

/-- A JSON value, as far as the status decoding needs it. -/
inductive Json where
  | null
  | bool (b : Bool)
  | num (n : Int)
  | str (s : String)
  | arr (elems : List Json)
  | obj (fields : List (String × Json))

/-- Serde decoding of an `Option<i64>` struct field from an object key:
missing key or `null` give `None`, a number gives `Some`, anything else is a
decode error. -/
def decodeOptI64 (kvs : List (String × Json)) (k : String) : Except String (Option Int) :=
  match kvs.lookup k with
  | none => .ok none
  | some .null => .ok none
  | some (.num n) => .ok (some n)
  | some _ => .error k

/-- Serde decoding of an `Option<bool>` struct field. -/
def decodeOptBool (kvs : List (String × Json)) (k : String) : Except String (Option Bool) :=
  match kvs.lookup k with
  | none => .ok none
  | some .null => .ok none
  | some (.bool b) => .ok (some b)
  | some _ => .error k

/-- Serde decoding of an `Option<String>` struct field. -/
def decodeOptString (kvs : List (String × Json)) (k : String) : Except String (Option String) :=
  match kvs.lookup k with
  | none => .ok none
  | some .null => .ok none
  | some (.str s) => .ok (some s)
  | some _ => .error k

/-- Serde decoding of a required `i64` struct field: a missing key, `null`, or
a non-number value are all decode errors. -/
def decodeReqI64 (kvs : List (String × Json)) (k : String) : Except String Int :=
  match kvs.lookup k with
  | some (.num n) => .ok n
  | some _ => .error k
  | none => .error k

/-- The enum `ClusterDataStateName` of `src/status_models/cluster_data.rs`,
variants in declaration order. -/
inductive ClusterDataStateName where
  | Initializing
  | MissingData
  | Healing
  | OptimizingTeamCollections
  | HealthyPopulatingRegion
  | HealthyRepartitioning
  | HealthyRemovingServer
  | HealthyRebalancing
  | Healthy
  | HealthyPerpetualWiggle
  | Unknown
deriving DecidableEq

/-- Serde decoding of the `ClusterDataStateName` enum from its rename tags.
The derive has no fallback attribute for unrecognized strings, so any string
that is not one of the eleven tags is a decode error. -/
def clusterDataStateNameOfString (s : String) : Except String ClusterDataStateName :=
  if s = "initializing" then .ok .Initializing
  else if s = "missing_data" then .ok .MissingData
  else if s = "healing" then .ok .Healing
  else if s = "optimizing_team_collections" then .ok .OptimizingTeamCollections
  else if s = "healthy_populating_region" then .ok .HealthyPopulatingRegion
  else if s = "healthy_repartitioning" then .ok .HealthyRepartitioning
  else if s = "healthy_removing_server" then .ok .HealthyRemovingServer
  else if s = "healthy_rebalancing" then .ok .HealthyRebalancing
  else if s = "healthy" then .ok .Healthy
  else if s = "healthy_perpetual_wiggle" then .ok .HealthyPerpetualWiggle
  else if s = "unknown" then .ok .Unknown
  else .error s

/-- Serde decoding of a `ClusterDataStateName` JSON value (unit enum variants
deserialize from strings only). -/
def decodeClusterDataStateName : Json → Except String ClusterDataStateName
  | .str s => clusterDataStateNameOfString s
  | _ => .error "name"

/-- The Rust `as i64` cast of `ClusterDataStateName`: discriminants are
assigned in declaration order, `Initializing = 0` through `Unknown = 10`. -/
def clusterDataStateNameOrdinal : ClusterDataStateName → Int
  | .Initializing => 0
  | .MissingData => 1
  | .Healing => 2
  | .OptimizingTeamCollections => 3
  | .HealthyPopulatingRegion => 4
  | .HealthyRepartitioning => 5
  | .HealthyRemovingServer => 6
  | .HealthyRebalancing => 7
  | .Healthy => 8
  | .HealthyPerpetualWiggle => 9
  | .Unknown => 10

/-- The struct `ClusterDataState` (`.cluster.data.state`). -/
structure ClusterDataState where
  healthy : Option Bool
  description : Option String
  min_replicas_remaining : Option Int
  name : ClusterDataStateName
deriving DecidableEq

/-- The struct `ClusterDataMoving` (`.cluster.data.moving_data`); its four
fields are plain `i64`, not `Option`. -/
structure ClusterDataMoving where
  highest_priority : Int
  in_flight_bytes : Int
  in_queue_bytes : Int
  total_written_bytes : Int
deriving DecidableEq

/-- The struct `ClusterData` (`.cluster.data`); every field is optional. -/
structure ClusterData where
  average_partition_size_bytes : Option Int
  least_operating_space_bytes_log_server : Option Int
  least_operating_space_bytes_storage_server : Option Int
  moving_data : Option ClusterDataMoving
  partitions_count : Option Int
  total_disk_used_bytes : Option Int
  total_kv_size_bytes : Option Int
  state : Option ClusterDataState
deriving DecidableEq

/-- Serde decoding of the `name` field of `ClusterDataState`.  The field
carries `#[serde(default)]`, so a missing `name` key decodes to the `Default`
of the enum, which is `Unknown`; a present `name` value goes through the enum
deserializer and can fail. -/
def decodeStateNameField (kvs : List (String × Json)) : Except String ClusterDataStateName :=
  match kvs.lookup "name" with
  | none => .ok .Unknown
  | some v => decodeClusterDataStateName v

/-- Serde decoding of `ClusterDataState`. -/
def decodeClusterDataState : Json → Except String ClusterDataState
  | .obj kvs => do
    let healthy ← decodeOptBool kvs "healthy"
    let description ← decodeOptString kvs "description"
    let minRep ← decodeOptI64 kvs "min_replicas_remaining"
    let name ← decodeStateNameField kvs
    .ok ⟨healthy, description, minRep, name⟩
  | _ => .error "state"

/-- Serde decoding of `ClusterDataMoving`: all four `i64` fields are
required. -/
def decodeClusterDataMoving : Json → Except String ClusterDataMoving
  | .obj kvs => do
    let hp ← decodeReqI64 kvs "highest_priority"
    let ifb ← decodeReqI64 kvs "in_flight_bytes"
    let iqb ← decodeReqI64 kvs "in_queue_bytes"
    let twb ← decodeReqI64 kvs "total_written_bytes"
    .ok ⟨hp, ifb, iqb, twb⟩
  | _ => .error "moving_data"

/-- Serde decoding of an optional nested struct field: missing key or `null`
give `None`, otherwise the nested decoder runs and its failure fails the
enclosing object. -/
def decodeOptWith (dec : Json → Except String α) (kvs : List (String × Json)) (k : String) :
    Except String (Option α) :=
  match kvs.lookup k with
  | none => .ok none
  | some .null => .ok none
  | some v => (dec v).map some

/-- Serde decoding of `ClusterData`. -/
def decodeClusterData : Json → Except String ClusterData
  | .obj kvs => do
    let avg ← decodeOptI64 kvs "average_partition_size_bytes"
    let leastLog ← decodeOptI64 kvs "least_operating_space_bytes_log_server"
    let leastStorage ← decodeOptI64 kvs "least_operating_space_bytes_storage_server"
    let moving ← decodeOptWith decodeClusterDataMoving kvs "moving_data"
    let partitions ← decodeOptI64 kvs "partitions_count"
    let totalDisk ← decodeOptI64 kvs "total_disk_used_bytes"
    let totalKv ← decodeOptI64 kvs "total_kv_size_bytes"
    let state ← decodeOptWith decodeClusterDataState kvs "state"
    .ok ⟨avg, leastLog, leastStorage, moving, partitions, totalDisk, totalKv, state⟩
  | _ => .error "data"

/-- The ten prometheus `IntGauge` registers declared in
`src/metrics/prometheus/cluster_data.rs`, as one state record.  Field names
abbreviate the static names, in declaration order of the statics. -/
structure ClusterGauges where
  avg_partition_size_bytes : Int
  least_space_log_server_bytes : Int
  least_space_storage_server_bytes : Int
  partition_count : Int
  total_disk_used_bytes : Int
  total_kv_size_bytes : Int
  state_healthy : Int
  state_current : Int
  moving_data_in_flight_bytes : Int
  moving_data_in_queue_bytes : Int
deriving DecidableEq

/-- Prometheus gauges initialize to 0. -/
def initClusterGauges : ClusterGauges := ⟨0, 0, 0, 0, 0, 0, 0, 0, 0, 0⟩

/-- The Rust `bool as i64` cast. -/
def boolToI64 (b : Bool) : Int := if b then 1 else 0

/-- `ClusterData::to_metrics` of `src/metrics/prometheus/cluster_data.rs`:
each present field sets its gauge; an absent field leaves its gauge alone; a
present `state` always sets the state gauge from the name ordinal and sets the
healthy gauge only when `healthy` is present; a present `moving_data` sets the
in-flight and in-queue gauges (its other two fields feed no gauge). -/
def ClusterData.to_metrics (cd : ClusterData) (g : ClusterGauges) : ClusterGauges :=
  let g := match cd.total_kv_size_bytes with
    | some v => { g with total_kv_size_bytes := v }
    | none => g
  let g := match cd.total_disk_used_bytes with
    | some v => { g with total_disk_used_bytes := v }
    | none => g
  let g := match cd.partitions_count with
    | some v => { g with partition_count := v }
    | none => g
  let g := match cd.least_operating_space_bytes_log_server with
    | some v => { g with least_space_log_server_bytes := v }
    | none => g
  let g := match cd.least_operating_space_bytes_storage_server with
    | some v => { g with least_space_storage_server_bytes := v }
    | none => g
  let g := match cd.average_partition_size_bytes with
    | some v => { g with avg_partition_size_bytes := v }
    | none => g
  let g := match cd.state with
    | some st =>
      let g := match st.healthy with
        | some h => { g with state_healthy := boolToI64 h }
        | none => g
      { g with state_current := clusterDataStateNameOrdinal st.name }
    | none => g
  match cd.moving_data with
  | some md =>
    { g with
        moving_data_in_flight_bytes := md.in_flight_bytes
        moving_data_in_queue_bytes := md.in_queue_bytes }
  | none => g

/-- Modelled from the spec: the root status tree (src/status_models/mod.rs is
not under src/).  The spec describes a root whose `cluster` node and its
`data` subtree are independently optional. -/
structure Cluster where
  data : Option ClusterData
deriving DecidableEq

/-- Modelled from the spec: the root of the parsed cluster status. -/
structure Status where
  cluster : Option Cluster
deriving DecidableEq

/-- Modelled from the spec: serde decoding of the `cluster` node, optional
fields as in every other node. -/
def decodeCluster : Json → Except String Cluster
  | .obj kvs => do
    let data ← decodeOptWith decodeClusterData kvs "data"
    .ok ⟨data⟩
  | _ => .error "cluster"

/-- Modelled from the spec: serde decoding of the root status document. -/
def decodeStatus : Json → Except String Status
  | .obj kvs => do
    let cluster ← decodeOptWith decodeCluster kvs "cluster"
    .ok ⟨cluster⟩
  | _ => .error "status"

/-- Modelled from the spec: `process_metrics` (src/metrics/mod.rs is not under
src/) runs one conversion pass per present subtree, skipping absent subtrees
entirely.  Only the `.cluster.data` pass is carried in this model. -/
def process_metrics (st : Status) (g : ClusterGauges) : ClusterGauges :=
  match st.cluster with
  | some c =>
    match c.data with
    | some cd => cd.to_metrics g
    | none => g
  | none => g

/-- The error enum `FetchError` of `src/fetcher.rs`; payloads are irrelevant
to the metrics and control flow and are dropped. -/
inductive FetchError where
  | Parsing
  | Fdb
  | FdbBinding
  | StatusNotFound
deriving DecidableEq

/-- The four prometheus `IntCounter` registers declared in
`src/metrics/prometheus/mod.rs`, as one state record. -/
structure ExporterCounters where
  parsing_error_count : Nat
  fdb_error_count : Nat
  fdb_binding_error_count : Nat
  status_not_found_count : Nat
deriving DecidableEq

/-- Prometheus counters initialize to 0. -/
def initExporterCounters : ExporterCounters := ⟨0, 0, 0, 0⟩

/-- `impl MetricsConvertible for FetchError` of
`src/metrics/prometheus/mod.rs`: each variant increments its dedicated
counter. -/
def FetchError.to_metrics : FetchError → ExporterCounters → ExporterCounters
  | .Fdb, c => { c with fdb_error_count := c.fdb_error_count + 1 }
  | .FdbBinding, c => { c with fdb_binding_error_count := c.fdb_binding_error_count + 1 }
  | .StatusNotFound, c => { c with status_not_found_count := c.status_not_found_count + 1 }
  | .Parsing, c => { c with parsing_error_count := c.parsing_error_count + 1 }

/-- The mutable prometheus state the scrape driver touches. -/
structure DriverState where
  gauges : ClusterGauges
  counters : ExporterCounters
deriving DecidableEq

/-- One tick result of `fetch_cluster_status`. -/
inductive FetchResult where
  | ok (status : Status)
  | err (e : FetchError)

/-- The loop body of `run_status_fetcher` in `src/main.rs`, iterated over a
finite trace of fetch results (the sleep has no effect on the modelled state):
`Ok` converts the status, `Err(FdbBinding)` returns the error out of the loop,
any other error only runs `FetchError::to_metrics`; an exhausted trace stands
for a still-running loop. -/
def run_status_fetcher : List FetchResult → DriverState → DriverState × Option FetchError
  | [], st => (st, none)
  | .ok status :: rest, st =>
    run_status_fetcher rest ⟨process_metrics status st.gauges, st.counters⟩
  | .err .FdbBinding :: _, st => (st, some .FdbBinding)
  | .err e :: rest, st =>
    run_status_fetcher rest ⟨st.gauges, e.to_metrics st.counters⟩

/-! ### Endpoint parsing

The endpoint parsers work on `List Char`, the model of a Rust `&str` (the
status strings in play are ASCII).  `FdbProcessAddress::parse` delegates host
parsing to `url::Host::parse` and port parsing to `u16::from_str`;
`NetworkAddress::from_str` delegates to std `SocketAddr::from_str` and
`u16::from_str`.  Those dependency functions are modelled below from their
documented grammars, restricted to ASCII input without percent-escapes,
IPv4-in-IPv6 tails, or scope ids (restrictions noted at each definition). -/

/-- Split a character list on a separator, keeping empty chunks, as Rust
`str::split` does. -/
def splitOnChar (sep : Char) : List Char → List (List Char)
  | [] => [[]]
  | c :: rest =>
    if c = sep then [] :: splitOnChar sep rest
    else
      match splitOnChar sep rest with
      | [] => [[c]]
      | g :: gs => (c :: g) :: gs

/-- Split at the last occurrence of a colon, the model of
`str::rfind(":")` followed by the two slices: `none` when there is no colon,
otherwise the text before the last colon and the text after it. -/
def splitLastColon : List Char → Option (List Char × List Char)
  | [] => none
  | c :: rest =>
    match splitLastColon rest with
    | some (h, p) => some (c :: h, p)
    | none => if c = ':' then some ([], rest) else none

/-- Split at the first occurrence of a character. -/
def splitFirst (t : Char) : List Char → Option (List Char × List Char)
  | [] => none
  | c :: rest =>
    if c = t then some ([], rest)
    else (splitFirst t rest).map (fun q => (c :: q.1, q.2))

/-- An ASCII decimal digit value. -/
def decDigit? (c : Char) : Option Nat :=
  if c.isDigit then some (c.toNat - 48) else none

/-- An ASCII octal digit value. -/
def octDigit? (c : Char) : Option Nat :=
  if '0' ≤ c ∧ c ≤ '7' then some (c.toNat - 48) else none

/-- An ASCII hexadecimal digit value, both cases. -/
def hexDigit? (c : Char) : Option Nat :=
  if c.isDigit then some (c.toNat - 48)
  else if 'a' ≤ c ∧ c ≤ 'f' then some (c.toNat - 87)
  else if 'A' ≤ c ∧ c ≤ 'F' then some (c.toNat - 55)
  else none

/-- Fold a digit list in a radix, failing on the first non-digit.  The empty
list folds to 0; callers that need non-emptiness check it themselves. -/
def foldDigits (radix : Nat) (digit? : Char → Option Nat) (s : List Char) : Option Nat :=
  s.foldl (fun acc c => acc.bind (fun n => (digit? c).map (fun d => n * radix + d))) (some 0)

/-- Modelled from Rust core `u16::from_str`: an optional leading plus sign,
then one or more ASCII decimal digits, value at most 65535; leading zeros are
accepted and do not change the value. -/
def parseU16 (s : List Char) : Option Nat :=
  let digits := match s with
    | '+' :: rest => rest
    | _ => s
  if digits.isEmpty then none
  else match foldDigits 10 decDigit? digits with
    | some n => if n ≤ 65535 then some n else none
    | none => none

/-- Modelled from Rust std port parsing inside `SocketAddr::from_str`: one or
more decimal digits, no sign, value at most 65535. -/
def portDigits (s : List Char) : Option Nat :=
  if s.isEmpty then none
  else match foldDigits 10 decDigit? s with
    | some n => if n ≤ 65535 then some n else none
    | none => none

/-- A hex digit or a colon — the only characters an IPv6 address text may
contain in this model. -/
def isHexOrColon (c : Char) : Bool := (hexDigit? c).isSome || c == ':'

/-- Split at the first occurrence of a double colon. -/
def splitDoubleColon : List Char → Option (List Char × List Char)
  | ':' :: ':' :: rest => some ([], rest)
  | c :: rest => (splitDoubleColon rest).map (fun q => (c :: q.1, q.2))
  | [] => none

/-- One IPv6 group: one to four hex digits. -/
def parseHexGroup (g : List Char) : Option Nat :=
  if g.isEmpty ∨ 4 < g.length then none
  else foldDigits 16 hexDigit? g

/-- Parse every chunk with the given parser, failing if any chunk fails. -/
def sequenceParts (f : List Char → Option Nat) : List (List Char) → Option (List Nat)
  | [] => some []
  | p :: ps => (f p).bind fun v => (sequenceParts f ps).map (v :: ·)

/-- Modelled from the WHATWG IPv6 parser implemented by the url crate: hex
groups of one to four digits separated by single colons, at most one double
colon, eight groups in total; the embedded IPv4 tail is not modelled (no
status input uses it).  The WHATWG algorithm accepts a double colon standing
for zero groups in the middle of a full eight-group address (the compress
swap is a no-op there), but a leading double colon counts as one piece and a
trailing one is reached only below eight pieces, so in those positions at
most seven explicit groups may surround it.  Returns the eight group
values. -/
def parseIpv6 (s : List Char) : Option (List Nat) :=
  if s.all isHexOrColon then
    match splitDoubleColon s with
    | none =>
      let gs := splitOnChar ':' s
      if gs.length = 8 then sequenceParts parseHexGroup gs else none
    | some (l, r) =>
      if (splitDoubleColon r).isSome then none
      else
        let lg := if l.isEmpty then [] else splitOnChar ':' l
        let rg := if r.isEmpty then [] else splitOnChar ':' r
        match sequenceParts parseHexGroup lg, sequenceParts parseHexGroup rg with
        | some lv, some rv =>
          if lv.length + rv.length ≤ (if l.isEmpty ∨ r.isEmpty then 7 else 8) then
            some (lv ++ List.replicate (8 - lv.length - rv.length) 0 ++ rv)
          else none
        | _, _ => none
  else none

/-- Modelled from Rust std `read_ipv6_addr` (the IPv6 grammar behind
`SocketAddr::from_str`): same hex groups, but the double colon must cover at
least one zero group — std reads the tail with limit `8 - (head + 1)`, so
with a double colon present at most seven groups are written explicitly;
the embedded IPv4 tail and scope ids are not modelled (no status input uses
them).  Returns the eight group values. -/
def parseIpv6Std (s : List Char) : Option (List Nat) :=
  if s.all isHexOrColon then
    match splitDoubleColon s with
    | none =>
      let gs := splitOnChar ':' s
      if gs.length = 8 then sequenceParts parseHexGroup gs else none
    | some (l, r) =>
      if (splitDoubleColon r).isSome then none
      else
        let lg := if l.isEmpty then [] else splitOnChar ':' l
        let rg := if r.isEmpty then [] else splitOnChar ':' r
        match sequenceParts parseHexGroup lg, sequenceParts parseHexGroup rg with
        | some lv, some rv =>
          if lv.length + rv.length ≤ 7 then
            some (lv ++ List.replicate (8 - lv.length - rv.length) 0 ++ rv)
          else none
        | _, _ => none
  else none

/-- Length of the run of zero groups starting at an index. -/
def runLenAt (gs : List Nat) (i : Nat) : Nat := ((gs.drop i).takeWhile (· = 0)).length

/-- Leftmost longest run of zero groups, as the pair (start, length), found by
a left fold that replaces the best candidate only on a strictly longer run. -/
def bestZeroRun (gs : List Nat) : Nat × Nat :=
  (List.range gs.length).foldl
    (fun best i =>
      let len := runLenAt gs i
      if best.2 < len then (i, len) else best) (0, 0)

/-- Groups in lowercase hex, joined by colons. -/
def renderGroups (gs : List Nat) : List Char :=
  List.intercalate [':'] (gs.map (Nat.toDigits 16))

/-- Modelled from Rust std `Ipv6Addr` `Display` (RFC 5952): compress the
leftmost longest run of at least two zero groups into a double colon. -/
def renderIpv6 (gs : List Nat) : List Char :=
  let best := bestZeroRun gs
  if 2 ≤ best.2 then
    renderGroups (gs.take best.1) ++ ':' :: ':' :: renderGroups (gs.drop (best.1 + best.2))
  else renderGroups gs

/-- Modelled from the WHATWG IPv4 number parser used by the url crate: a
`0x`/`0X` prefix makes the rest hex (an empty rest is 0), a remaining leading
zero makes the rest octal (an empty rest is 0), otherwise the text is
decimal; any non-digit of the radix fails. -/
def parseIPv4Number : List Char → Option Nat
  | [] => none
  | '0' :: 'x' :: rest => if rest.isEmpty then some 0 else foldDigits 16 hexDigit? rest
  | '0' :: 'X' :: rest => if rest.isEmpty then some 0 else foldDigits 16 hexDigit? rest
  | '0' :: rest => if rest.isEmpty then some 0 else foldDigits 8 octDigit? rest
  | s => foldDigits 10 decDigit? s

/-- Modelled from the WHATWG ends-in-a-number check of the url crate host
parser: after dropping one trailing empty dot-label, the last label is either
non-empty all-decimal or parses as an IPv4 number. -/
def endsInANumber (s : List Char) : Bool :=
  let parts := splitOnChar '.' s
  let parts := if parts.getLast? = some [] ∧ 1 < parts.length then parts.dropLast else parts
  match parts.getLast? with
  | none => false
  | some last =>
    if ¬ last.isEmpty ∧ last.all Char.isDigit then true
    else (parseIPv4Number last).isSome

/-- Modelled from the WHATWG IPv4 parser used by the url crate: up to four
dot-labels (one trailing empty label dropped), each an IPv4 number, the last
bounded by what the missing labels leave, combined into one 32-bit value. -/
def parseIpv4 (s : List Char) : Option Nat :=
  let parts := splitOnChar '.' s
  let parts := if parts.getLast? = some [] ∧ 1 < parts.length then parts.dropLast else parts
  if 4 < parts.length then none
  else match sequenceParts parseIPv4Number parts with
    | none => none
    | some ns =>
      match ns with
      | [a] => if a < 4294967296 then some a else none
      | [a, b] => if a < 256 ∧ b < 16777216 then some (a * 16777216 + b) else none
      | [a, b, c] =>
        if a < 256 ∧ b < 256 ∧ c < 65536 then some (a * 16777216 + b * 65536 + c) else none
      | [a, b, c, d] =>
        if a < 256 ∧ b < 256 ∧ c < 256 ∧ d < 256 then
          some (a * 16777216 + b * 65536 + c * 256 + d)
        else none
      | _ => none

/-- Dotted-decimal rendering of an IPv4 value (Rust std `Ipv4Addr`
`Display`). -/
def renderIpv4 (n : Nat) : List Char :=
  Nat.toDigits 10 (n / 16777216 % 256) ++ '.' :: Nat.toDigits 10 (n / 65536 % 256) ++
    '.' :: Nat.toDigits 10 (n / 256 % 256) ++ '.' :: Nat.toDigits 10 (n % 256)

/-- The `url::Host<String>` value of the url crate: an IPv4 address, an IPv6
address (eight group values), or an ASCII domain. -/
inductive Host where
  | Ipv4 (addr : Nat)
  | Ipv6 (groups : List Nat)
  | Domain (name : List Char)
deriving DecidableEq

/-- The forbidden host code points of the URL standard restricted to ASCII
input, with the percent sign also rejected: this model implements neither
percent-decoding nor IDNA, and rejects non-ASCII input outright. -/
def forbiddenHostChar (c : Char) : Bool :=
  c == '\x00' || c == '\t' || c == '\n' || c == '\r' || c == ' ' || c == '#' || c == '%' ||
  c == '/' || c == ':' || c == '<' || c == '>' || c == '?' || c == '@' || c == '[' ||
  c == '\\' || c == ']' || c == '^' || c == '|' || !(decide (c.toNat < 128))

/-- Modelled from `url::Host::parse` (the url crate, a dependency), restricted
to ASCII input without percent-escapes: an empty input is rejected, a
bracketed input must parse as IPv6, otherwise the input is lowercased,
rejected on any forbidden host character, parsed as IPv4 when it ends in a
number, and kept as a domain otherwise. -/
def hostParse (s : List Char) : Option Host :=
  match s with
  | [] => none
  | '[' :: rest =>
    match rest.getLast? with
    | some ']' => (parseIpv6 rest.dropLast).map Host.Ipv6
    | _ => none
  | _ =>
    let d := s.map Char.toLower
    if d.any forbiddenHostChar then none
    else if endsInANumber d then (parseIpv4 d).map Host.Ipv4
    else some (Host.Domain d)

/-- The url crate `Display` for `Host`, as used by the `{}` of
`FdbProcessAddress` `Display`: dotted decimal for IPv4, bracketed RFC 5952
for IPv6, the name itself for a domain. -/
def hostRender : Host → List Char
  | .Ipv4 n => renderIpv4 n
  | .Ipv6 gs => '[' :: (renderIpv6 gs ++ [']'])
  | .Domain d => d

/-- The error enum `AddressError` of `src/status_models/address.rs`. -/
inductive AddressError where
  | MissingPort
  | ParsingPort
  | ParsingHost
deriving DecidableEq

/-- The struct `FdbProcessAddress` of `src/status_models/address.rs`. -/
structure FdbProcessAddress where
  host : Host
  port : Nat
  tls : Bool
deriving DecidableEq

/-- The literal `TLS_SUFFIX` (":tls"). -/
def tlsSuffix : List Char := [':', 't', 'l', 's']

/-- The Rust `Option::ok_or`, as used by the `?` chains of the parser. -/
def okOr : Option α → ε → Except ε α
  | some a, _ => .ok a
  | none, e => .error e

/-- `FdbProcessAddress::parse` of `src/status_models/address.rs`: strip a
trailing ":tls" marker, split at the last colon (no colon is `MissingPort`),
parse the port with `u16::from_str` (failure is `ParsingPort`), parse the host
with `url::Host::parse` (failure is `ParsingHost`). -/
def FdbProcessAddress.parse (s : List Char) : Except AddressError FdbProcessAddress := do
  let tls := tlsSuffix.isSuffixOf s
  let host_port := if tls then s.take (s.length - 4) else s
  let sp ← okOr (splitLastColon host_port) .MissingPort
  let port ← okOr (parseU16 sp.2) .ParsingPort
  let host ← okOr (hostParse sp.1) .ParsingHost
  .ok ⟨host, port, tls⟩

/-- The `Display` impl of `FdbProcessAddress`: `host:port` then the ":tls"
suffix when the security flag is set. -/
def FdbProcessAddress.display (a : FdbProcessAddress) : List Char :=
  hostRender a.host ++ ':' :: Nat.toDigits 10 a.port ++ (if a.tls then tlsSuffix else [])

/-- The enum `NetworkAddress` of `src/status_models/network_address.rs` (the
flowinfo and scope id of `SocketAddrV6`, always 0 here, are dropped). -/
inductive NetworkAddress where
  | Ipv4 (addr : Nat) (port : Nat)
  | Ipv6 (groups : List Nat) (port : Nat)
  | Dns (hostname : List Char) (port : Nat)
deriving DecidableEq

/-- Modelled from Rust std `Ipv4Addr::from_str` octets: no sign, no leading
zero unless the octet is exactly "0", at most 255. -/
def strictOctet (p : List Char) : Option Nat :=
  match p with
  | [] => none
  | ['0'] => some 0
  | '0' :: _ => none
  | _ =>
    match foldDigits 10 decDigit? p with
    | some n => if n ≤ 255 then some n else none
    | none => none

/-- Modelled from Rust std `Ipv4Addr::from_str`: exactly four strict decimal
octets. -/
def strictIpv4 (s : List Char) : Option Nat :=
  match splitOnChar '.' s with
  | [a, b, c, d] =>
    match strictOctet a, strictOctet b, strictOctet c, strictOctet d with
    | some x, some y, some z, some w => some (x * 16777216 + y * 65536 + z * 256 + w)
    | _, _, _, _ => none
  | _ => none

/-- Modelled from Rust std `SocketAddr::from_str`: either `ipv4:port` with a
strict dotted-quad host, or a bracketed IPv6 host followed by a colon and a
port. -/
def socketAddrParse (s : List Char) : Option NetworkAddress :=
  match s with
  | '[' :: rest =>
    (splitFirst ']' rest).bind fun q =>
      match q.2 with
      | ':' :: p =>
        (parseIpv6Std q.1).bind fun gs => (portDigits p).map fun port => .Ipv6 gs port
      | _ => none
  | _ =>
    (splitLastColon s).bind fun q =>
      (strictIpv4 q.1).bind fun ip => (portDigits q.2).map fun port => .Ipv4 ip port

/-- The three error messages `NetworkAddress::from_str` can format; only
which message is produced matters to the model. -/
inductive NetworkAddressError where
  | emptyHostname
  | invalidPort
  | invalidFormat
deriving DecidableEq

/-- `NetworkAddress::from_str` of `src/status_models/network_address.rs`:
first try std `SocketAddr::from_str`, then split at the last colon into
hostname and port, requiring a non-empty hostname and a `u16` port. -/
def NetworkAddress.from_str (s : List Char) : Except NetworkAddressError NetworkAddress :=
  match socketAddrParse s with
  | some a => .ok a
  | none =>
    match splitLastColon s with
    | some (hostname, portStr) =>
      if hostname.isEmpty then .error .emptyHostname
      else
        match parseU16 portStr with
        | some port => .ok (.Dns hostname port)
        | none => .error .invalidPort
    | none => .error .invalidFormat

/-! ### Helper lemmas about the conversion pass and the decoders -/

/-- Closed form of one conversion pass: each gauge ends at the present value
or keeps its prior reading. -/
theorem ClusterData.to_metrics_eq (cd : ClusterData) (g : ClusterGauges) :
    cd.to_metrics g =
      ⟨cd.average_partition_size_bytes.getD g.avg_partition_size_bytes,
       cd.least_operating_space_bytes_log_server.getD g.least_space_log_server_bytes,
       cd.least_operating_space_bytes_storage_server.getD g.least_space_storage_server_bytes,
       cd.partitions_count.getD g.partition_count,
       cd.total_disk_used_bytes.getD g.total_disk_used_bytes,
       cd.total_kv_size_bytes.getD g.total_kv_size_bytes,
       ((cd.state.bind ClusterDataState.healthy).map boolToI64).getD g.state_healthy,
       (cd.state.map (fun st => clusterDataStateNameOrdinal st.name)).getD g.state_current,
       (cd.moving_data.map ClusterDataMoving.in_flight_bytes).getD g.moving_data_in_flight_bytes,
       (cd.moving_data.map ClusterDataMoving.in_queue_bytes).getD g.moving_data_in_queue_bytes⟩ := by
  obtain ⟨a, b, c, d, e, f, k, s⟩ := cd
  rcases s with _ | ⟨hl, ds, mr, nm⟩
  · cases a <;> cases b <;> cases c <;> cases d <;> cases e <;> cases f <;> cases k <;> rfl
  · cases hl <;> cases a <;> cases b <;> cases c <;> cases d <;> cases e <;> cases f <;>
      cases k <;> rfl

/-- Removing every entry of an object under one key, modelling a JSON object
with that key omitted. -/
def eraseKey (k : String) (kvs : List (String × Json)) : List (String × Json) :=
  kvs.filter (fun p => p.1 != k)

theorem lookup_eraseKey_self (k : String) (kvs : List (String × Json)) :
    (eraseKey k kvs).lookup k = none := by
  induction kvs with
  | nil => rfl
  | cons p rest ih =>
    rcases p with ⟨a, v⟩
    by_cases hp : a = k
    · simpa [eraseKey, List.filter_cons, hp] using ih
    · have h1 : (a != k) = true := by simp [hp]
      have h2 : (k == a) = false := beq_false_of_ne (Ne.symm hp)
      simpa [eraseKey, List.filter_cons, h1, List.lookup_cons, h2] using ih

theorem lookup_eraseKey_ne (k k' : String) (h : k' ≠ k) (kvs : List (String × Json)) :
    (eraseKey k kvs).lookup k' = kvs.lookup k' := by
  induction kvs with
  | nil => rfl
  | cons p rest ih =>
    rcases p with ⟨a, v⟩
    by_cases hp : a = k
    · subst hp
      have hk'a : (k' == a) = false := beq_false_of_ne h
      simpa [eraseKey, List.filter_cons, List.lookup_cons, hk'a] using ih
    · have h1 : (a != k) = true := by simp [hp]
      by_cases hk' : k' = a
      · simp [eraseKey, List.filter_cons, h1, List.lookup_cons, hk']
      · have hk2 : (k' == a) = false := beq_false_of_ne hk'
        simpa [eraseKey, List.filter_cons, h1, List.lookup_cons, hk2] using ih

theorem decodeOptI64_erase_self (k : String) (kvs : List (String × Json)) :
    decodeOptI64 (eraseKey k kvs) k = .ok none := by
  simp [decodeOptI64, lookup_eraseKey_self]

theorem decodeOptI64_erase_ne (k k' : String) (h : k' ≠ k) (kvs : List (String × Json)) :
    decodeOptI64 (eraseKey k kvs) k' = decodeOptI64 kvs k' := by
  simp [decodeOptI64, lookup_eraseKey_ne k k' h]

theorem decodeOptBool_erase_self (k : String) (kvs : List (String × Json)) :
    decodeOptBool (eraseKey k kvs) k = .ok none := by
  simp [decodeOptBool, lookup_eraseKey_self]

theorem decodeOptBool_erase_ne (k k' : String) (h : k' ≠ k) (kvs : List (String × Json)) :
    decodeOptBool (eraseKey k kvs) k' = decodeOptBool kvs k' := by
  simp [decodeOptBool, lookup_eraseKey_ne k k' h]

theorem decodeOptString_erase_self (k : String) (kvs : List (String × Json)) :
    decodeOptString (eraseKey k kvs) k = .ok none := by
  simp [decodeOptString, lookup_eraseKey_self]

theorem decodeOptString_erase_ne (k k' : String) (h : k' ≠ k) (kvs : List (String × Json)) :
    decodeOptString (eraseKey k kvs) k' = decodeOptString kvs k' := by
  simp [decodeOptString, lookup_eraseKey_ne k k' h]

theorem decodeOptWith_erase_self (dec : Json → Except String α) (k : String)
    (kvs : List (String × Json)) : decodeOptWith dec (eraseKey k kvs) k = .ok none := by
  simp [decodeOptWith, lookup_eraseKey_self]

theorem decodeOptWith_erase_ne (dec : Json → Except String α) (k k' : String) (h : k' ≠ k)
    (kvs : List (String × Json)) :
    decodeOptWith dec (eraseKey k kvs) k' = decodeOptWith dec kvs k' := by
  simp [decodeOptWith, lookup_eraseKey_ne k k' h]

theorem decodeStateNameField_erase_ne (k : String) (h : "name" ≠ k)
    (kvs : List (String × Json)) :
    decodeStateNameField (eraseKey k kvs) = decodeStateNameField kvs := by
  simp [decodeStateNameField, lookup_eraseKey_ne k "name" h]

theorem decodeStateNameField_erase_name (kvs : List (String × Json)) :
    decodeStateNameField (eraseKey "name" kvs) = .ok .Unknown := by
  simp [decodeStateNameField, lookup_eraseKey_self]

theorem okBind (a : α) (f : α → Except ε β) : (Except.ok a : Except ε α) >>= f = f a := rfl

theorem errorBind (e : ε) (f : α → Except ε β) :
    (Except.error e : Except ε α) >>= f = .error e := rfl

/-- Inversion of the `ClusterData` object decoder into its eight independent
field decoders. -/
theorem decodeClusterData_ok_iff (kvs : List (String × Json)) (cd : ClusterData) :
    decodeClusterData (.obj kvs) = .ok cd ↔
      decodeOptI64 kvs "average_partition_size_bytes" = .ok cd.average_partition_size_bytes ∧
      decodeOptI64 kvs "least_operating_space_bytes_log_server" =
        .ok cd.least_operating_space_bytes_log_server ∧
      decodeOptI64 kvs "least_operating_space_bytes_storage_server" =
        .ok cd.least_operating_space_bytes_storage_server ∧
      decodeOptWith decodeClusterDataMoving kvs "moving_data" = .ok cd.moving_data ∧
      decodeOptI64 kvs "partitions_count" = .ok cd.partitions_count ∧
      decodeOptI64 kvs "total_disk_used_bytes" = .ok cd.total_disk_used_bytes ∧
      decodeOptI64 kvs "total_kv_size_bytes" = .ok cd.total_kv_size_bytes ∧
      decodeOptWith decodeClusterDataState kvs "state" = .ok cd.state := by
  constructor
  · intro h
    simp only [decodeClusterData] at h
    cases h1 : decodeOptI64 kvs "average_partition_size_bytes" <;>
      rw [h1] at h <;> simp only [okBind, errorBind] at h
    case error e => simp at h
    cases h2 : decodeOptI64 kvs "least_operating_space_bytes_log_server" <;>
      rw [h2] at h <;> simp only [okBind, errorBind] at h
    case error e => simp at h
    cases h3 : decodeOptI64 kvs "least_operating_space_bytes_storage_server" <;>
      rw [h3] at h <;> simp only [okBind, errorBind] at h
    case error e => simp at h
    cases h4 : decodeOptWith decodeClusterDataMoving kvs "moving_data" <;>
      rw [h4] at h <;> simp only [okBind, errorBind] at h
    case error e => simp at h
    cases h5 : decodeOptI64 kvs "partitions_count" <;>
      rw [h5] at h <;> simp only [okBind, errorBind] at h
    case error e => simp at h
    cases h6 : decodeOptI64 kvs "total_disk_used_bytes" <;>
      rw [h6] at h <;> simp only [okBind, errorBind] at h
    case error e => simp at h
    cases h7 : decodeOptI64 kvs "total_kv_size_bytes" <;>
      rw [h7] at h <;> simp only [okBind, errorBind] at h
    case error e => simp at h
    cases h8 : decodeOptWith decodeClusterDataState kvs "state" <;>
      rw [h8] at h <;> simp only [okBind, errorBind] at h
    case error e => simp at h
    simp only [Except.ok.injEq] at h
    subst h
    exact ⟨rfl, rfl, rfl, rfl, rfl, rfl, rfl, rfl⟩
  · rintro ⟨h1, h2, h3, h4, h5, h6, h7, h8⟩
    simp only [decodeClusterData, h1, h2, h3, h4, h5, h6, h7, h8, okBind]

/-- Inversion of the `ClusterDataState` object decoder. -/
theorem decodeClusterDataState_ok_iff (kvs : List (String × Json)) (st : ClusterDataState) :
    decodeClusterDataState (.obj kvs) = .ok st ↔
      decodeOptBool kvs "healthy" = .ok st.healthy ∧
      decodeOptString kvs "description" = .ok st.description ∧
      decodeOptI64 kvs "min_replicas_remaining" = .ok st.min_replicas_remaining ∧
      decodeStateNameField kvs = .ok st.name := by
  constructor
  · intro h
    simp only [decodeClusterDataState] at h
    cases h1 : decodeOptBool kvs "healthy" <;>
      rw [h1] at h <;> simp only [okBind, errorBind] at h
    case error e => simp at h
    cases h2 : decodeOptString kvs "description" <;>
      rw [h2] at h <;> simp only [okBind, errorBind] at h
    case error e => simp at h
    cases h3 : decodeOptI64 kvs "min_replicas_remaining" <;>
      rw [h3] at h <;> simp only [okBind, errorBind] at h
    case error e => simp at h
    cases h4 : decodeStateNameField kvs <;>
      rw [h4] at h <;> simp only [okBind, errorBind] at h
    case error e => simp at h
    simp only [Except.ok.injEq] at h
    subst h
    exact ⟨rfl, rfl, rfl, rfl⟩
  · rintro ⟨h1, h2, h3, h4⟩
    simp only [decodeClusterDataState, h1, h2, h3, h4, okBind]

/-! ### Helper lemmas about the endpoint parsers -/

/-- A successful last-colon split reassembles the input. -/
theorem splitLastColon_append (x h p : List Char) (hx : splitLastColon x = some (h, p)) :
    x = h ++ ':' :: p := by
  induction x generalizing h p with
  | nil => simp [splitLastColon] at hx
  | cons c rest ih =>
    simp only [splitLastColon] at hx
    cases hr : splitLastColon rest with
    | some pr =>
      rw [hr] at hx
      obtain ⟨h', p'⟩ := pr
      simp only [Option.some.injEq, Prod.mk.injEq] at hx
      obtain ⟨hh, hp⟩ := hx
      subst hh
      subst hp
      rw [ih h' p' hr]
      rfl
    | none =>
      rw [hr] at hx
      by_cases hc : c = ':'
      · rw [if_pos hc] at hx
        simp only [Option.some.injEq, Prod.mk.injEq] at hx
        obtain ⟨hh, hp⟩ := hx
        subst hh
        subst hp
        rw [hc]
        rfl
      · rw [if_neg hc] at hx
        cases hx

/-- Stripping a detected ":tls" suffix and putting it back reproduces the
input text. -/
theorem take_append_tlsSuffix (s : List Char) (h : tlsSuffix.isSuffixOf s = true) :
    s.take (s.length - 4) ++ tlsSuffix = s := by
  have hsuf : tlsSuffix <:+ s := by rwa [List.isSuffixOf_iff_suffix] at h
  obtain ⟨t, ht⟩ := hsuf
  subst ht
  have hlen : (t ++ tlsSuffix).length - 4 = t.length := by
    simp [tlsSuffix]
  rw [hlen, List.take_left]

/-- Every character of a text accepted by the std IPv6 parser is a hex digit
or a colon. -/
theorem parseIpv6Std_chars (s : List Char) (gs : List Nat) (h : parseIpv6Std s = some gs) :
    ∀ c ∈ s, isHexOrColon c = true := by
  by_cases hall : s.all isHexOrColon
  · exact fun c hc => List.all_eq_true.mp hall c hc
  · rw [parseIpv6Std, if_neg hall] at h
    cases h

/-- Splitting at the first occurrence of a character absent from the front
part lands exactly at that occurrence. -/
theorem splitFirst_append (t : Char) (xs ys : List Char) (h : ∀ c ∈ xs, c ≠ t) :
    splitFirst t (xs ++ t :: ys) = some (xs, ys) := by
  induction xs with
  | nil => simp [splitFirst]
  | cons c rest ih =>
    have hc : ¬ c = t := h c (by simp)
    simp only [List.cons_append, splitFirst, if_neg hc, List.append_eq]
    rw [ih (fun d hd => h d (by simp [hd]))]
    rfl

/-! ### Claim theorems: conversion pass and decode -/

/-- Claim C2: for every `ClusterData` value and every prior gauge state, the
conversion pass writes a gauge only when its source field is `Some`: every
field that is `None`, and every series derived from an absent subtree
(`state`, `moving_data`), leaves its gauge exactly at the value it held before
the pass. -/
theorem claim_C2_frame (cd : ClusterData) (g : ClusterGauges) :
    (cd.total_kv_size_bytes = none →
      (cd.to_metrics g).total_kv_size_bytes = g.total_kv_size_bytes) ∧
    (cd.total_disk_used_bytes = none →
      (cd.to_metrics g).total_disk_used_bytes = g.total_disk_used_bytes) ∧
    (cd.partitions_count = none → (cd.to_metrics g).partition_count = g.partition_count) ∧
    (cd.least_operating_space_bytes_log_server = none →
      (cd.to_metrics g).least_space_log_server_bytes = g.least_space_log_server_bytes) ∧
    (cd.least_operating_space_bytes_storage_server = none →
      (cd.to_metrics g).least_space_storage_server_bytes = g.least_space_storage_server_bytes) ∧
    (cd.average_partition_size_bytes = none →
      (cd.to_metrics g).avg_partition_size_bytes = g.avg_partition_size_bytes) ∧
    (cd.state = none →
      (cd.to_metrics g).state_current = g.state_current ∧
      (cd.to_metrics g).state_healthy = g.state_healthy) ∧
    (cd.state.bind ClusterDataState.healthy = none →
      (cd.to_metrics g).state_healthy = g.state_healthy) ∧
    (cd.moving_data = none →
      (cd.to_metrics g).moving_data_in_flight_bytes = g.moving_data_in_flight_bytes ∧
      (cd.to_metrics g).moving_data_in_queue_bytes = g.moving_data_in_queue_bytes) := by
  rw [ClusterData.to_metrics_eq]
  refine ⟨?_, ?_, ?_, ?_, ?_, ?_, ?_, ?_, ?_⟩ <;> intro h <;> simp [h]

/-- Witness for C2 at a concrete input: a fully absent document leaves a
concrete gauge state untouched. -/
theorem claim_C2_frame_witness :
    ((⟨none, none, none, none, none, none, none, none⟩ : ClusterData).to_metrics
        ⟨1, 2, 3, 4, 5, 6, 7, 8, 9, 10⟩).total_kv_size_bytes = 6 ∧
    ((⟨none, none, none, none, none, none, none, none⟩ : ClusterData).to_metrics
        ⟨1, 2, 3, 4, 5, 6, 7, 8, 9, 10⟩).moving_data_in_flight_bytes = 9 :=
  ⟨(claim_C2_frame ⟨none, none, none, none, none, none, none, none⟩
      ⟨1, 2, 3, 4, 5, 6, 7, 8, 9, 10⟩).1 rfl,
   ((claim_C2_frame ⟨none, none, none, none, none, none, none, none⟩
      ⟨1, 2, 3, 4, 5, 6, 7, 8, 9, 10⟩).2.2.2.2.2.2.2.2 rfl).1⟩

/-- Counterexample to claim C3: a cluster-state object whose `name` value is
the unrecognized string `bogus` fails the decode, and fails the decode of the
enclosing document, instead of yielding the `Unknown` fallback. -/
theorem claim_C3_counterexample :
    decodeClusterDataState (Json.obj [("name", Json.str "bogus")]) = .error "bogus" ∧
    decodeClusterData (Json.obj [("state", Json.obj [("name", Json.str "bogus")])]) =
      .error "bogus" :=
  ⟨rfl, rfl⟩

/-- Claim C3 as amended: an unrecognized `name` string fails the decode of the
enclosing document; the fallback `Unknown` variant arises exactly when the
`name` key is absent from the state object. -/
theorem claim_C3_amended :
    decodeClusterDataState (Json.obj []) = .ok ⟨none, none, none, .Unknown⟩ ∧
    decodeClusterData (Json.obj [("state", Json.obj [])]) =
      .ok ⟨none, none, none, none, none, none, none, some ⟨none, none, none, .Unknown⟩⟩ ∧
    (∀ kvs st, kvs.lookup "name" = none → decodeClusterDataState (.obj kvs) = .ok st →
      st.name = .Unknown) ∧
    (∀ s, clusterDataStateNameOfString s = .ok .Unknown ∨
      clusterDataStateNameOfString s = .error s →
      decodeClusterDataStateName (.str s) = clusterDataStateNameOfString s) := by
  refine ⟨rfl, rfl, ?_, fun s _ => rfl⟩
  intro kvs st hl h
  have h4 := ((decodeClusterDataState_ok_iff kvs st).1 h).2.2.2
  simp only [decodeStateNameField, hl] at h4
  injection h4 with h5
  exact h5.symm

/-- Witness for C3 as amended: the missing-name fallback applied at a concrete
state object. -/
theorem claim_C3_amended_witness :
    ClusterDataState.name ⟨some true, none, none, .Unknown⟩ = .Unknown :=
  claim_C3_amended.2.2.1 [("healthy", Json.bool true)] ⟨some true, none, none, .Unknown⟩ rfl rfl

/-- Counterexample to claim C6: the leaves of the `moving_data` subtree are
not independently optional — a `moving_data` object omitting only its
`total_written_bytes` key fails the decode of the whole document. -/
theorem claim_C6_counterexample :
    decodeClusterData (Json.obj [("moving_data", Json.obj
      [("highest_priority", Json.num 1), ("in_flight_bytes", Json.num 2),
       ("in_queue_bytes", Json.num 3)])]) = .error "total_written_bytes" := rfl

/-- Claim C6 as amended: every direct field of the cluster-data subtree and of
its state subtree is independently optional — removing its key from any
successfully decoding object still decodes, with exactly that field absent
(`name` falling back to `Unknown`) — but the four leaves of `moving_data` are
required whenever `moving_data` is present. -/
theorem claim_C6_amended :
    (∀ kvs cd, decodeClusterData (.obj kvs) = .ok cd →
      decodeClusterData (.obj (eraseKey "average_partition_size_bytes" kvs)) =
        .ok { cd with average_partition_size_bytes := none } ∧
      decodeClusterData (.obj (eraseKey "least_operating_space_bytes_log_server" kvs)) =
        .ok { cd with least_operating_space_bytes_log_server := none } ∧
      decodeClusterData (.obj (eraseKey "least_operating_space_bytes_storage_server" kvs)) =
        .ok { cd with least_operating_space_bytes_storage_server := none } ∧
      decodeClusterData (.obj (eraseKey "moving_data" kvs)) =
        .ok { cd with moving_data := none } ∧
      decodeClusterData (.obj (eraseKey "partitions_count" kvs)) =
        .ok { cd with partitions_count := none } ∧
      decodeClusterData (.obj (eraseKey "total_disk_used_bytes" kvs)) =
        .ok { cd with total_disk_used_bytes := none } ∧
      decodeClusterData (.obj (eraseKey "total_kv_size_bytes" kvs)) =
        .ok { cd with total_kv_size_bytes := none } ∧
      decodeClusterData (.obj (eraseKey "state" kvs)) = .ok { cd with state := none }) ∧
    (∀ kvs st, decodeClusterDataState (.obj kvs) = .ok st →
      decodeClusterDataState (.obj (eraseKey "healthy" kvs)) =
        .ok { st with healthy := none } ∧
      decodeClusterDataState (.obj (eraseKey "description" kvs)) =
        .ok { st with description := none } ∧
      decodeClusterDataState (.obj (eraseKey "min_replicas_remaining" kvs)) =
        .ok { st with min_replicas_remaining := none } ∧
      decodeClusterDataState (.obj (eraseKey "name" kvs)) =
        .ok { st with name := .Unknown }) ∧
    (∀ kvs, kvs.lookup "total_written_bytes" = none →
      ∀ md, decodeClusterDataMoving (.obj kvs) ≠ .ok md) := by
  refine ⟨?_, ?_, ?_⟩
  · intro kvs cd h
    obtain ⟨h1, h2, h3, h4, h5, h6, h7, h8⟩ := (decodeClusterData_ok_iff kvs cd).1 h
    refine ⟨?_, ?_, ?_, ?_, ?_, ?_, ?_, ?_⟩ <;> rw [decodeClusterData_ok_iff]
    · exact ⟨decodeOptI64_erase_self _ _,
        (decodeOptI64_erase_ne _ _ (by decide) _).trans h2,
        (decodeOptI64_erase_ne _ _ (by decide) _).trans h3,
        (decodeOptWith_erase_ne _ _ _ (by decide) _).trans h4,
        (decodeOptI64_erase_ne _ _ (by decide) _).trans h5,
        (decodeOptI64_erase_ne _ _ (by decide) _).trans h6,
        (decodeOptI64_erase_ne _ _ (by decide) _).trans h7,
        (decodeOptWith_erase_ne _ _ _ (by decide) _).trans h8⟩
    · exact ⟨(decodeOptI64_erase_ne _ _ (by decide) _).trans h1,
        decodeOptI64_erase_self _ _,
        (decodeOptI64_erase_ne _ _ (by decide) _).trans h3,
        (decodeOptWith_erase_ne _ _ _ (by decide) _).trans h4,
        (decodeOptI64_erase_ne _ _ (by decide) _).trans h5,
        (decodeOptI64_erase_ne _ _ (by decide) _).trans h6,
        (decodeOptI64_erase_ne _ _ (by decide) _).trans h7,
        (decodeOptWith_erase_ne _ _ _ (by decide) _).trans h8⟩
    · exact ⟨(decodeOptI64_erase_ne _ _ (by decide) _).trans h1,
        (decodeOptI64_erase_ne _ _ (by decide) _).trans h2,
        decodeOptI64_erase_self _ _,
        (decodeOptWith_erase_ne _ _ _ (by decide) _).trans h4,
        (decodeOptI64_erase_ne _ _ (by decide) _).trans h5,
        (decodeOptI64_erase_ne _ _ (by decide) _).trans h6,
        (decodeOptI64_erase_ne _ _ (by decide) _).trans h7,
        (decodeOptWith_erase_ne _ _ _ (by decide) _).trans h8⟩
    · exact ⟨(decodeOptI64_erase_ne _ _ (by decide) _).trans h1,
        (decodeOptI64_erase_ne _ _ (by decide) _).trans h2,
        (decodeOptI64_erase_ne _ _ (by decide) _).trans h3,
        decodeOptWith_erase_self _ _ _,
        (decodeOptI64_erase_ne _ _ (by decide) _).trans h5,
        (decodeOptI64_erase_ne _ _ (by decide) _).trans h6,
        (decodeOptI64_erase_ne _ _ (by decide) _).trans h7,
        (decodeOptWith_erase_ne _ _ _ (by decide) _).trans h8⟩
    · exact ⟨(decodeOptI64_erase_ne _ _ (by decide) _).trans h1,
        (decodeOptI64_erase_ne _ _ (by decide) _).trans h2,
        (decodeOptI64_erase_ne _ _ (by decide) _).trans h3,
        (decodeOptWith_erase_ne _ _ _ (by decide) _).trans h4,
        decodeOptI64_erase_self _ _,
        (decodeOptI64_erase_ne _ _ (by decide) _).trans h6,
        (decodeOptI64_erase_ne _ _ (by decide) _).trans h7,
        (decodeOptWith_erase_ne _ _ _ (by decide) _).trans h8⟩
    · exact ⟨(decodeOptI64_erase_ne _ _ (by decide) _).trans h1,
        (decodeOptI64_erase_ne _ _ (by decide) _).trans h2,
        (decodeOptI64_erase_ne _ _ (by decide) _).trans h3,
        (decodeOptWith_erase_ne _ _ _ (by decide) _).trans h4,
        (decodeOptI64_erase_ne _ _ (by decide) _).trans h5,
        decodeOptI64_erase_self _ _,
        (decodeOptI64_erase_ne _ _ (by decide) _).trans h7,
        (decodeOptWith_erase_ne _ _ _ (by decide) _).trans h8⟩
    · exact ⟨(decodeOptI64_erase_ne _ _ (by decide) _).trans h1,
        (decodeOptI64_erase_ne _ _ (by decide) _).trans h2,
        (decodeOptI64_erase_ne _ _ (by decide) _).trans h3,
        (decodeOptWith_erase_ne _ _ _ (by decide) _).trans h4,
        (decodeOptI64_erase_ne _ _ (by decide) _).trans h5,
        (decodeOptI64_erase_ne _ _ (by decide) _).trans h6,
        decodeOptI64_erase_self _ _,
        (decodeOptWith_erase_ne _ _ _ (by decide) _).trans h8⟩
    · exact ⟨(decodeOptI64_erase_ne _ _ (by decide) _).trans h1,
        (decodeOptI64_erase_ne _ _ (by decide) _).trans h2,
        (decodeOptI64_erase_ne _ _ (by decide) _).trans h3,
        (decodeOptWith_erase_ne _ _ _ (by decide) _).trans h4,
        (decodeOptI64_erase_ne _ _ (by decide) _).trans h5,
        (decodeOptI64_erase_ne _ _ (by decide) _).trans h6,
        (decodeOptI64_erase_ne _ _ (by decide) _).trans h7,
        decodeOptWith_erase_self _ _ _⟩
  · intro kvs st h
    obtain ⟨h1, h2, h3, h4⟩ := (decodeClusterDataState_ok_iff kvs st).1 h
    refine ⟨?_, ?_, ?_, ?_⟩ <;> rw [decodeClusterDataState_ok_iff]
    · exact ⟨decodeOptBool_erase_self _ _,
        (decodeOptString_erase_ne _ _ (by decide) _).trans h2,
        (decodeOptI64_erase_ne _ _ (by decide) _).trans h3,
        (decodeStateNameField_erase_ne _ (by decide) _).trans h4⟩
    · exact ⟨(decodeOptBool_erase_ne _ _ (by decide) _).trans h1,
        decodeOptString_erase_self _ _,
        (decodeOptI64_erase_ne _ _ (by decide) _).trans h3,
        (decodeStateNameField_erase_ne _ (by decide) _).trans h4⟩
    · exact ⟨(decodeOptBool_erase_ne _ _ (by decide) _).trans h1,
        (decodeOptString_erase_ne _ _ (by decide) _).trans h2,
        decodeOptI64_erase_self _ _,
        (decodeStateNameField_erase_ne _ (by decide) _).trans h4⟩
    · exact ⟨(decodeOptBool_erase_ne _ _ (by decide) _).trans h1,
        (decodeOptString_erase_ne _ _ (by decide) _).trans h2,
        (decodeOptI64_erase_ne _ _ (by decide) _).trans h3,
        decodeStateNameField_erase_name _⟩
  · intro kvs hl md h
    simp only [decodeClusterDataMoving] at h
    cases t1 : decodeReqI64 kvs "highest_priority" <;>
      rw [t1] at h <;> simp only [okBind, errorBind] at h
    case error e => simp at h
    cases t2 : decodeReqI64 kvs "in_flight_bytes" <;>
      rw [t2] at h <;> simp only [okBind, errorBind] at h
    case error e => simp at h
    cases t3 : decodeReqI64 kvs "in_queue_bytes" <;>
      rw [t3] at h <;> simp only [okBind, errorBind] at h
    case error e => simp at h
    have t4 : decodeReqI64 kvs "total_written_bytes" = .error "total_written_bytes" := by
      simp [decodeReqI64, hl]
    rw [t4] at h
    simp only [errorBind] at h
    simp at h

/-- Witness for C6 as amended: dropping the `partitions_count` key from a
concrete one-field document leaves an all-absent decode. -/
theorem claim_C6_amended_witness :
    decodeClusterData (.obj (eraseKey "partitions_count" [("partitions_count", Json.num 5)])) =
      .ok ⟨none, none, none, none, none, none, none, none⟩ :=
  ((claim_C6_amended.1 [("partitions_count", Json.num 5)]
    ⟨none, none, none, none, some 5, none, none, none⟩ rfl).2.2.2.2.1)

/-- Claim C7: decoding the minimal document
`{"cluster":{"data":{"total_kv_size_bytes": 42}}}` from the initialization
defaults and running one conversion pass leaves the total-kv-size gauge at 42
and every other cluster-data series at its initialization default. -/
theorem claim_C7_minimal_document :
    (decodeStatus (Json.obj [("cluster", Json.obj [("data",
        Json.obj [("total_kv_size_bytes", Json.num 42)])])])).map
        (fun st => process_metrics st initClusterGauges) =
      .ok { initClusterGauges with total_kv_size_bytes := 42 } := rfl

/-- Claim C10: a present state subtree always overwrites the cluster-state
gauge with the declaration-order ordinal of the state name; a state object
without a `name` key decodes the name to `Unknown`, whose ordinal 10 is then
written regardless of the prior gauge value; the healthy gauge is written only
when the `healthy` field is present. -/
theorem claim_C10_state_gauge :
    (∀ (cd : ClusterData) (g : ClusterGauges) (st : ClusterDataState), cd.state = some st →
      (cd.to_metrics g).state_current = clusterDataStateNameOrdinal st.name ∧
      (st.healthy = none → (cd.to_metrics g).state_healthy = g.state_healthy) ∧
      (∀ b, st.healthy = some b → (cd.to_metrics g).state_healthy = boolToI64 b)) ∧
    (∀ kvs st, kvs.lookup "name" = none → decodeClusterDataState (.obj kvs) = .ok st →
      st.name = .Unknown) ∧
    clusterDataStateNameOrdinal .Unknown = 10 := by
  refine ⟨?_, ?_, rfl⟩
  · intro cd g st h
    rw [ClusterData.to_metrics_eq]
    refine ⟨by simp [h], fun hh => by simp [h, hh], fun b hb => by simp [h, hb]⟩
  · intro kvs st hl h
    have h4 := ((decodeClusterDataState_ok_iff kvs st).1 h).2.2.2
    simp only [decodeStateNameField, hl] at h4
    injection h4 with h5
    exact h5.symm

/-- Witness for C10 at a concrete input: a nameless state object drives the
state gauge from 3 to 10 and leaves the healthy gauge alone. -/
theorem claim_C10_state_gauge_witness :
    ((⟨none, none, none, none, none, none, none,
        some ⟨none, none, none, .Unknown⟩⟩ : ClusterData).to_metrics
      ⟨0, 0, 0, 0, 0, 0, 7, 3, 0, 0⟩).state_current = clusterDataStateNameOrdinal .Unknown ∧
    ((⟨none, none, none, none, none, none, none,
        some ⟨none, none, none, .Unknown⟩⟩ : ClusterData).to_metrics
      ⟨0, 0, 0, 0, 0, 0, 7, 3, 0, 0⟩).state_healthy = 7 ∧
    ClusterDataState.name ⟨none, none, none, .Unknown⟩ = .Unknown :=
  ⟨(claim_C10_state_gauge.1 _ _ ⟨none, none, none, .Unknown⟩ rfl).1,
   (claim_C10_state_gauge.1 _ _ ⟨none, none, none, .Unknown⟩ rfl).2.1 rfl,
   claim_C10_state_gauge.2.1 [] ⟨none, none, none, .Unknown⟩ rfl rfl⟩

/-! ### Claim theorems: scrape driver error policy -/

/-- Claim C4: in the scrape driver loop, an `FdbBinding` fetch error
terminates the loop by propagating the error, every other error variant only
runs its counter conversion and the loop proceeds, and no error other than
`FdbBinding` ever propagates out of the loop. -/
theorem claim_C4_error_policy :
    (∀ rs st e, (run_status_fetcher rs st).2 = some e → e = .FdbBinding) ∧
    (∀ rs st, run_status_fetcher (.err .FdbBinding :: rs) st = (st, some .FdbBinding)) ∧
    (∀ e, e ≠ FetchError.FdbBinding → ∀ rs st,
      run_status_fetcher (.err e :: rs) st =
        run_status_fetcher rs ⟨st.gauges, e.to_metrics st.counters⟩) := by
  refine ⟨?_, fun rs st => rfl, ?_⟩
  · intro rs
    induction rs with
    | nil => intro st e h; exact absurd h (by simp [run_status_fetcher])
    | cons r rest ih =>
      intro st e h
      cases r with
      | ok status => exact ih _ e h
      | err e' =>
        cases e' with
        | FdbBinding => exact (Option.some.inj h).symm
        | Parsing => exact ih _ e h
        | Fdb => exact ih _ e h
        | StatusNotFound => exact ih _ e h
  · intro e he rs st
    cases e with
    | FdbBinding => exact absurd rfl he
    | Parsing => rfl
    | Fdb => rfl
    | StatusNotFound => rfl

/-- Witness for C4 at concrete inputs: a parsing error is tick-local, a
binding error is propagated from a concrete state. -/
theorem claim_C4_error_policy_witness :
    run_status_fetcher [.err .Parsing] ⟨initClusterGauges, initExporterCounters⟩ =
      run_status_fetcher []
        ⟨initClusterGauges, FetchError.to_metrics .Parsing initExporterCounters⟩ ∧
    run_status_fetcher [.err .FdbBinding] ⟨initClusterGauges, initExporterCounters⟩ =
      (⟨initClusterGauges, initExporterCounters⟩, some .FdbBinding) :=
  ⟨claim_C4_error_policy.2.2 .Parsing (by decide) [] ⟨initClusterGauges, initExporterCounters⟩,
   claim_C4_error_policy.2.1 [] ⟨initClusterGauges, initExporterCounters⟩⟩

/-- Counterexample to claim C9: a binding error is an occurrence of a
fetch-pipeline error on which the driver increments no counter at all — the
loop returns with the whole state, every counter included, unchanged. -/
theorem claim_C9_counterexample :
    run_status_fetcher [.err .FdbBinding] ⟨initClusterGauges, initExporterCounters⟩ =
      (⟨initClusterGauges, initExporterCounters⟩, some .FdbBinding) ∧
    (run_status_fetcher [.err .FdbBinding]
        ⟨initClusterGauges, initExporterCounters⟩).1.counters.fdb_binding_error_count = 0 :=
  ⟨rfl, rfl⟩

/-- Claim C9 as amended: each of the tick-local errors — parsing, Fdb and
status-not-found — increments exactly its dedicated counter by one, once per
occurrence on whatever tick produced it; a binding error terminates the loop
without touching any counter, and the driver never increments the binding
error counter. -/
theorem claim_C9_amended :
    (∀ rs st, run_status_fetcher (.err .Parsing :: rs) st =
      run_status_fetcher rs ⟨st.gauges,
        { st.counters with parsing_error_count := st.counters.parsing_error_count + 1 }⟩) ∧
    (∀ rs st, run_status_fetcher (.err .Fdb :: rs) st =
      run_status_fetcher rs ⟨st.gauges,
        { st.counters with fdb_error_count := st.counters.fdb_error_count + 1 }⟩) ∧
    (∀ rs st, run_status_fetcher (.err .StatusNotFound :: rs) st =
      run_status_fetcher rs ⟨st.gauges,
        { st.counters with
            status_not_found_count := st.counters.status_not_found_count + 1 }⟩) ∧
    (∀ rs st, run_status_fetcher (.err .FdbBinding :: rs) st = (st, some .FdbBinding)) ∧
    (∀ rs st, (run_status_fetcher rs st).1.counters.fdb_binding_error_count =
      st.counters.fdb_binding_error_count) := by
  refine ⟨fun rs st => rfl, fun rs st => rfl, fun rs st => rfl, fun rs st => rfl, ?_⟩
  intro rs
  induction rs with
  | nil => intro st; rfl
  | cons r rest ih =>
    intro st
    cases r with
    | ok status => exact ih _
    | err e =>
      cases e with
      | Parsing => exact ih _
      | Fdb => exact ih _
      | StatusNotFound => exact ih _
      | FdbBinding => rfl

/-! ### Claim theorems: endpoint parser -/

theorem someBind (a : α) (f : α → Option β) : (some a).bind f = f a := rfl

theorem someMap (a : α) (f : α → β) : (some a).map f = some (f a) := rfl

/-- Claim C5: the endpoint parser satisfies each listed example — IPv4 with
port and no security flag, bracketed IPv6 with the flag, a DNS hostname, and
the three error conditions `MissingPort`, `ParsingHost`, `ParsingPort`. -/
theorem claim_C5_examples :
    FdbProcessAddress.parse ("127.0.0.1:1234".data) =
      .ok ⟨.Ipv4 2130706433, 1234, false⟩ ∧
    FdbProcessAddress.parse ("[::1]:4500:tls".data) =
      .ok ⟨.Ipv6 [0, 0, 0, 0, 0, 0, 0, 1], 4500, true⟩ ∧
    FdbProcessAddress.parse ("somedomain.com:4500".data) =
      .ok ⟨.Domain ("somedomain.com".data), 4500, false⟩ ∧
    FdbProcessAddress.parse ("hostname".data) = .error .MissingPort ∧
    FdbProcessAddress.parse (":4500".data) = .error .ParsingHost ∧
    FdbProcessAddress.parse ("hostname:notaport".data) = .error .ParsingPort :=
  ⟨rfl, rfl, rfl, rfl, rfl, rfl⟩

/-- Counterexample to claim C1: the accepted text "somedomain.com:01" does not
render back byte-for-byte — the leading-zero port re-renders as "1". -/
theorem claim_C1_counterexample :
    FdbProcessAddress.parse ("somedomain.com:01".data) =
      .ok ⟨.Domain ("somedomain.com".data), 1, false⟩ ∧
    FdbProcessAddress.display ⟨.Domain ("somedomain.com".data), 1, false⟩ =
      "somedomain.com:1".data ∧
    "somedomain.com:1".data ≠ "somedomain.com:01".data :=
  ⟨rfl, rfl, by decide⟩

/-- Claim C1 as amended: every accepted text splits into a host part, a port
part and an optional ":tls" suffix, and rendering reproduces the text
byte-for-byte exactly when the host part is the canonical rendering of the
parsed host and the port part is the canonical decimal of the port — which
holds in particular for the six canonical shapes, each checked below. -/
theorem claim_C1_amended :
    (∀ (s : List Char) (a : FdbProcessAddress), FdbProcessAddress.parse s = .ok a →
      ∃ hs ps, s = hs ++ ':' :: ps ++ (if a.tls then tlsSuffix else []) ∧
        hostParse hs = some a.host ∧ parseU16 ps = some a.port ∧
        (hostRender a.host = hs → Nat.toDigits 10 a.port = ps → a.display = s)) ∧
    (FdbProcessAddress.parse ("127.0.0.1:1234".data)).map FdbProcessAddress.display =
      .ok ("127.0.0.1:1234".data) ∧
    (FdbProcessAddress.parse ("127.0.0.1:1234:tls".data)).map FdbProcessAddress.display =
      .ok ("127.0.0.1:1234:tls".data) ∧
    (FdbProcessAddress.parse ("[::1]:4500".data)).map FdbProcessAddress.display =
      .ok ("[::1]:4500".data) ∧
    (FdbProcessAddress.parse ("[::1]:4500:tls".data)).map FdbProcessAddress.display =
      .ok ("[::1]:4500:tls".data) ∧
    (FdbProcessAddress.parse ("somedomain.com:4500".data)).map FdbProcessAddress.display =
      .ok ("somedomain.com:4500".data) ∧
    (FdbProcessAddress.parse ("somedomain.com:4500:tls".data)).map FdbProcessAddress.display =
      .ok ("somedomain.com:4500:tls".data) := by
  refine ⟨?_, rfl, rfl, rfl, rfl, rfl, rfl⟩
  intro s a h
  obtain ⟨ah, ap, atls⟩ := a
  simp only [FdbProcessAddress.parse] at h
  cases hsp : splitLastColon
      (if tlsSuffix.isSuffixOf s = true then s.take (s.length - 4) else s) with
  | none =>
    rw [hsp] at h
    simp [okOr, errorBind] at h
  | some sp =>
    obtain ⟨hs, ps⟩ := sp
    rw [hsp] at h
    simp only [okOr, okBind] at h
    cases hp : parseU16 ps with
    | none =>
      rw [hp] at h
      simp [okOr, errorBind] at h
    | some port =>
      rw [hp] at h
      simp only [okOr, okBind] at h
      cases hh : hostParse hs with
      | none =>
        rw [hh] at h
        simp [okOr, errorBind] at h
      | some host =>
        rw [hh] at h
        simp only [okOr, okBind, Except.ok.injEq, FdbProcessAddress.mk.injEq] at h
        obtain ⟨h_host, h_port, h_tls⟩ := h
        subst h_host
        subst h_port
        subst h_tls
        have hseq : s = hs ++ ':' :: ps ++
            (if tlsSuffix.isSuffixOf s = true then tlsSuffix else []) := by
          by_cases hts : tlsSuffix.isSuffixOf s = true
          · have h1 : s.take (s.length - 4) = hs ++ ':' :: ps :=
              splitLastColon_append _ hs ps (by rwa [if_pos hts] at hsp)
            have h2 := take_append_tlsSuffix s hts
            rw [h1] at h2
            rw [if_pos hts, ← h2]
          · have h1 : s = hs ++ ':' :: ps :=
              splitLastColon_append _ hs ps (by rwa [if_neg hts] at hsp)
            rw [if_neg hts, h1]
            simp
        refine ⟨hs, ps, hseq, hh, hp, ?_⟩
        intro e1 e2
        replace e1 : hostRender host = hs := e1
        replace e2 : Nat.toDigits 10 port = ps := e2
        show hostRender host ++ ':' :: Nat.toDigits 10 port ++
            (if tlsSuffix.isSuffixOf s = true then tlsSuffix else []) = s
        rw [e1, e2]
        exact hseq.symm

/-- Witness for C1 as amended, applied at the accepted text
"somedomain.com:4500": the decomposition exists with both parts canonical. -/
theorem claim_C1_amended_witness :
    ∃ hs ps, "somedomain.com:4500".data = hs ++ ':' :: ps ++
        (if (false : Bool) then tlsSuffix else []) ∧
      hostParse hs = some (.Domain ("somedomain.com".data)) ∧
      parseU16 ps = some 4500 ∧
      (hostRender (.Domain ("somedomain.com".data)) = hs →
        Nat.toDigits 10 4500 = ps →
        FdbProcessAddress.display ⟨.Domain ("somedomain.com".data), 4500, false⟩ =
          "somedomain.com:4500".data) :=
  claim_C1_amended.1 ("somedomain.com:4500".data)
    ⟨.Domain ("somedomain.com".data), 4500, false⟩ rfl

/-- Counterexample to claim C8: the input "a::b:80", whose host part "a::b"
contains a double colon, is not classified as IPv6 at the socket-address step
— it reaches the last-colon hostname split and is returned as a DNS
variant. -/
theorem claim_C8_counterexample :
    NetworkAddress.from_str ("a::b:80".data) = .ok (.Dns ("a::b".data) 80) ∧
    List.IsInfix [':', ':'] ("a::b".data) :=
  ⟨rfl, by decide⟩

/-- Claim C8 as amended: a bracketed host part that parses as IPv6 with a
valid port is always classified as IPv6 at the socket-address step, but the
last-colon hostname split is also reached for unbracketed host parts
containing a double colon, which are returned as DNS variants. -/
theorem claim_C8_amended :
    (∀ (inner p : List Char) (gs : List Nat) (port : Nat),
      parseIpv6Std inner = some gs → portDigits p = some port →
      NetworkAddress.from_str ('[' :: (inner ++ ']' :: ':' :: p)) = .ok (.Ipv6 gs port)) ∧
    NetworkAddress.from_str ("a::b:80".data) = .ok (.Dns ("a::b".data) 80) := by
  refine ⟨?_, rfl⟩
  intro inner p gs port hv hp
  have hne : ∀ c ∈ inner, c ≠ ']' := by
    intro c hc hcc
    have hhex := parseIpv6Std_chars inner gs hv c hc
    rw [hcc] at hhex
    exact absurd hhex (by decide)
  have hsock : socketAddrParse ('[' :: (inner ++ ']' :: ':' :: p)) =
      some (.Ipv6 gs port) := by
    simp only [socketAddrParse, splitFirst_append ']' inner (':' :: p) hne, someBind,
      hv, hp, someMap]
  simp only [NetworkAddress.from_str, hsock]

/-- Witness for C8 as amended, applied at the bracketed text "[::1]:4500". -/
theorem claim_C8_amended_witness :
    NetworkAddress.from_str ("[::1]:4500".data) =
      .ok (.Ipv6 [0, 0, 0, 0, 0, 0, 0, 1] 4500) :=
  claim_C8_amended.1 ("::1".data) ("4500".data) [0, 0, 0, 0, 0, 0, 0, 1] 4500 rfl rfl

end FdbExporter
